import Mathlib

/-!
Verification development for the copilot-cli stack deployment engine.

The Go sources under `internal/pkg/cli/pipeline_deploy.go` and the test
file for the load-balanced-web-service stack configuration are embedded
shallowly below; components whose implementation is not part of the
sources (the deployment state machine, change previewer, event stream
reader, template packager and concurrency guard) are modelled from the
specification, with their definitions marked accordingly.
-/

namespace PipelineCLI

/-- Shallow embedding of the Go error values arising in
`internal/pkg/cli/pipeline_deploy.go`.  `stackAlreadyExists` models a
`*cloudformation.ErrStackAlreadyExists` value, `wrap` models
`fmt.Errorf` context wrapping with `%w`, and `errMsg` models any other
error value. -/
inductive GoError
| stackAlreadyExists (stackName : String)
| errMsg (msg : String)
| wrap (context : String) (inner : GoError)
deriving DecidableEq, Repr

/-- Model of `errors.As(err, &alreadyExists)` with target type
`*cloudformation.ErrStackAlreadyExists`: the whole wrap chain is
inspected for a stack-already-exists value. -/
def GoError.isStackAlreadyExists : GoError → Bool
| .stackAlreadyExists _ => true
| .wrap _ e => e.isStackAlreadyExists
| .errMsg _ => false

/-- The flag fields of `deployPipelineOpts` that drive the control flow
of `deployPipeline` (source lines 46-65). -/
structure DeployOpts where
  skipConfirmation : Bool
  shouldPromptUpdateConnection : Bool

/-- Oracle for the collaborator calls issued by `deployPipeline`: each
field holds the response the corresponding collaborator would return.
`none` in an `Option GoError` field means the call succeeds. -/
structure DeployEnv where
  pipelineExists : Except GoError Bool
  appResourcesByRegion : Except GoError String
  hasConnectionName : Bool
  connectionName : Except GoError String
  createPipeline : Option GoError
  updatePipeline : Option GoError
  confirmRedeploy : Except GoError Bool

/-- Embedding of `deployPipelineOpts.getBucketName` (source lines
223-229): fetch the regional app resources and return the S3 bucket,
wrapping a failure as "get app resources". -/
def getBucketName (env : DeployEnv) : Except GoError String :=
  match env.appResourcesByRegion with
  | .error e => .error (.wrap "get app resources" e)
  | .ok bucket => .ok bucket

/-- Embedding of `deployPipelineOpts.shouldUpdate` (source lines
231-241): skip the prompt when `skipConfirmation` is set, otherwise ask
the prompter, wrapping a prompt failure. -/
def shouldUpdate (o : DeployOpts) (env : DeployEnv) : Except GoError Bool :=
  if o.skipConfirmation then .ok true
  else
    match env.confirmRedeploy with
    | .error e => .error (.wrap "prompt for pipeline deploy" e)
    | .ok b => .ok b

/-- Embedding of `deployPipelineOpts.deployPipeline` (source lines
243-299).  Returns `none` on success (Go `nil`) and `some e` on error.
The create branch swallows an error recognised by
`errors.As(err, &alreadyExists)` and reports success. -/
def deployPipeline (o : DeployOpts) (env : DeployEnv) : Option GoError :=
  match env.pipelineExists with
  | .error e => some (.wrap "check if pipeline exists" e)
  | .ok exist =>
    match getBucketName env with
    | .error e => some (.wrap "get bucket name" e)
    | .ok _bucketName =>
      if !exist then
        match
          (if o.shouldPromptUpdateConnection then
            (if env.hasConnectionName then
              (match env.connectionName with
               | .error e => some (GoError.wrap "parse connection name" e)
               | .ok _ => none)
             else some (GoError.errMsg "source does not have a connection name"))
           else none) with
        | some e => some e
        | none =>
          match env.createPipeline with
          | some err =>
            if err.isStackAlreadyExists then none
            else some (.wrap "create pipeline" err)
          | none => none
      else
        match shouldUpdate o env with
        | .error e => some e
        | .ok su =>
          if !su then none
          else
            match env.updatePipeline with
            | some err => some (.wrap "update pipeline" err)
            | none => none

end PipelineCLI

namespace PipelineCLI

/-- The fields of a parsed pipeline manifest that `Execute` consumes:
the pipeline name and whether `Source.Properties` carries a
`connection_name` entry (source lines 122-139). -/
structure PipelineManifest where
  name : String
  hasConnectionNameProp : Bool
deriving DecidableEq, Repr

/-- The steps `deployPipelineOpts.Execute` performs, in order, recorded
as a trace.  `nameLengthCheckPassed` marks that the manifest-name length
check on source lines 126-128 was passed. -/
inductive ExecStep
| addResources
| readManifest
| unmarshalManifest
| nameLengthCheckPassed
| getConnectionARN
| sourceFromManifest
| convertStages
| getArtifactBuckets
| deployPipelineStep
deriving DecidableEq, Repr

/-- Oracle for the collaborator calls issued by `Execute` before it
reaches `deployPipeline`. -/
structure ExecuteEnv where
  addResources : Option GoError
  readManifest : Except GoError String
  unmarshalManifest : Except GoError PipelineManifest
  getConnectionARN : Except GoError String
  sourceFromManifest : Except GoError Bool
  convertStages : Option GoError
  artifactBuckets : Option GoError
  deployEnv : DeployEnv

/-- Embedding of `deployPipelineOpts.Execute` (source lines 107-174),
returning the trace of steps performed together with `none` on success
or `some e` on error.  The pipeline-name length check sits between
unmarshalling and the connection lookup / stage conversion. -/
def Execute (skipConfirmation : Bool) (env : ExecuteEnv) :
    List ExecStep × Option GoError :=
  match env.addResources with
  | some e => ([.addResources], some (.wrap "add pipeline resources to application" e))
  | none =>
    match env.readManifest with
    | .error e => ([.addResources, .readManifest], some (.wrap "read pipeline manifest" e))
    | .ok _data =>
      match env.unmarshalManifest with
      | .error e =>
        ([.addResources, .readManifest, .unmarshalManifest],
          some (.wrap "unmarshal pipeline manifest" e))
      | .ok pipeline =>
        if pipeline.name.length > 100 then
          ([.addResources, .readManifest, .unmarshalManifest],
            some (.errMsg ("pipeline name " ++ pipeline.name ++
              " must be shorter than 100 characters")))
        else
          let base : List ExecStep :=
            [.addResources, .readManifest, .unmarshalManifest, .nameLengthCheckPassed] ++
              (if pipeline.hasConnectionNameProp then [.getConnectionARN] else [])
          match
            (if pipeline.hasConnectionNameProp then
              (match env.getConnectionARN with
               | .error e => some (GoError.wrap "get connection ARN" e)
               | .ok _ => none)
             else none) with
          | some e => (base, some e)
          | none =>
            match env.sourceFromManifest with
            | .error e =>
              (base ++ [.sourceFromManifest],
                some (.wrap "read source from manifest" e))
            | .ok shouldPrompt =>
              match env.convertStages with
              | some e =>
                (base ++ [.sourceFromManifest, .convertStages],
                  some (.wrap "convert environments to deployment stage" e))
              | none =>
                match env.artifactBuckets with
                | some e =>
                  (base ++ [.sourceFromManifest, .convertStages, .getArtifactBuckets],
                    some (.wrap "get cross-regional resources" e))
                | none =>
                  (base ++ [.sourceFromManifest, .convertStages, .getArtifactBuckets,
                      .deployPipelineStep],
                    deployPipeline
                      { skipConfirmation := skipConfirmation,
                        shouldPromptUpdateConnection := shouldPrompt }
                      env.deployEnv)

/-- A pipeline name of 101 characters, used to exercise the manifest
name-length check. -/
def execLongName : String := String.mk (List.replicate 101 'x')

/-- A concrete `Execute` environment whose manifest unmarshals to a
pipeline named `execLongName`. -/
def execWitnessEnv : ExecuteEnv :=
  { addResources := none
    readManifest := .ok "manifest-bytes"
    unmarshalManifest := .ok { name := execLongName, hasConnectionNameProp := false }
    getConnectionARN := .ok "arn"
    sourceFromManifest := .ok false
    convertStages := none
    artifactBuckets := none
    deployEnv :=
      { pipelineExists := .ok false
        appResourcesByRegion := .ok "bucket"
        hasConnectionName := false
        connectionName := .ok "conn"
        createPipeline := none
        updatePipeline := none
        confirmRedeploy := .ok true } }

end PipelineCLI

namespace StackNaming

/-- Modelled from the spec: the deterministic stack-name derivation
exposed as `StackName()` on a workload stack configuration.  The
deriving function itself is not among the sources; the spec says only
that the name is derived deterministically from the
application/environment/workload names, and the concrete behavior is
pinned by `TestLoadBalancedWebService_StackName` in the test sources:
the three names are joined with hyphens and the result is truncated to
the 128-character stack-name limit of the provider. -/
def StackName (app env service : String) : String :=
  let full := app ++ "-" ++ env ++ "-" ++ service
  if full.length > 128 then String.mk (full.toList.take 128) else full

/-- The 128-character service name from the second test case of
`TestLoadBalancedWebService_StackName`. -/
def longServiceName : String :=
  "whatisthishorriblylongservicenamethatcantfitintocloudformationwhatarewesupposedtodoaboutthisaaaaaaaaaaaaaaaaaaaaaaaaaaaaaaaaaaaa"

/-- The truncated stack name that same test case expects. -/
def longExpectedStackName : String :=
  "phonetool-test-whatisthishorriblylongservicenamethatcantfitintocloudformationwhatarewesupposedtodoaboutthisaaaaaaaaaaaaaaaaaaaaa"

end StackNaming

namespace WorkloadTemplate

/-- Modelled from the spec: the errors an addons ("nested stack")
lookup can produce.  The addon package itself is missing from the
sources; `notFound` models `addon.ErrAddonsNotFound` (no addons
directory), `errText` any other error, `wrapCtx` Go error wrapping. -/
inductive AddonsError
| notFound
| errText (msg : String)
| wrapCtx (context : String) (inner : AddonsError)
deriving DecidableEq, Repr

/-- Model of `errors.As(err, &noAddonsErr)` with target type
`*addon.ErrAddonsNotFound`: the whole wrap chain is inspected. -/
def AddonsError.isNotFound : AddonsError → Bool
| .notFound => true
| .wrapCtx _ e => e.isNotFound
| .errText _ => false

/-- The `Error()` rendering of an addons error, used when the error is
wrapped into a workload-level message. -/
def AddonsError.message : AddonsError → String
| .notFound => "addons directory does not exist"
| .errText m => m
| .wrapCtx c e => c ++ ": " ++ e.message

/-- Modelled from the spec: the nested-stack options handed to the
template renderer when an addons child stack exists (stack name plus the
output names the parent consumes). -/
structure NestedStackOpts where
  stackName : String
  variableOutputs : List String
  secretOutputs : List String
  policyOutputs : List String
deriving DecidableEq, Repr

/-- The addons collaborator of a workload: its template and parameters,
each either a rendered string or an error (mirrors the `mockAddons`
double of the test sources). -/
structure AddonsSource where
  template : Except AddonsError String
  parameters : Except AddonsError String

/-- Modelled from the spec: the addons-template half of the Nested Stack
Resolver.  Missing from the sources; behavior pinned by
`TestLoadBalancedWebService_Template`: an `ErrAddonsNotFound` from the
addons template means "no addons", any other error is wrapped with the
workload name as "generate addons template for ..." and propagated. -/
def addonsOutputs (name : String) (a : AddonsSource)
    (outputsOf : String → Except String NestedStackOpts) :
    Except String (Option NestedStackOpts) :=
  match a.template with
  | .error e =>
    if e.isNotFound then .ok none
    else .error ("generate addons template for " ++ name ++ ": " ++ e.message)
  | .ok tpl =>
    match outputsOf tpl with
    | .error e => .error ("get addons outputs for " ++ name ++ ": " ++ e)
    | .ok opts => .ok (some opts)

/-- Modelled from the spec: the addons-parameters half of the Nested
Stack Resolver.  Missing from the sources; behavior pinned by
`TestLoadBalancedWebService_Template`: `ErrAddonsNotFound` yields empty
extra parameters, any other error is wrapped with the workload name as
"parse addons parameters for ..." and propagated. -/
def addonsParameters (name : String) (a : AddonsSource) : Except String String :=
  match a.parameters with
  | .error e =>
    if e.isNotFound then .ok ""
    else .error ("parse addons parameters for " ++ name ++ ": " ++ e.message)
  | .ok p => .ok p

/-- The collaborators `Template()` consumes: the three lambda assets
read from the parser, the addons source, the addons-output parser, and
the final renderer (`ParseLoadBalancedWebService`), which receives any
nested-stack options plus the addons extra parameters. -/
structure TemplateEnv where
  rulePriorityLambda : Except String String
  desiredCountLambda : Except String String
  envControllerLambda : Except String String
  addons : AddonsSource
  outputsOf : String → Except String NestedStackOpts
  render : Option NestedStackOpts → String → Except String String

/-- Modelled from the spec: `LoadBalancedWebService.Template()`.
Missing from the sources; its step order and error messages are pinned
by `TestLoadBalancedWebService_Template`: read the rule-priority,
desired-count and env-controller lambdas, resolve the addons child
stack, then render the workload template. -/
def Template (name : String) (env : TemplateEnv) : Except String String :=
  match env.rulePriorityLambda with
  | .error e => .error ("read rule priority lambda: " ++ e)
  | .ok _ =>
    match env.desiredCountLambda with
    | .error e => .error ("read desired count lambda: " ++ e)
    | .ok _ =>
      match env.envControllerLambda with
      | .error e => .error ("read env controller lambda: " ++ e)
      | .ok _ =>
        match addonsOutputs name env.addons env.outputsOf with
        | .error e => .error e
        | .ok nested =>
          match addonsParameters name env.addons with
          | .error e => .error e
          | .ok extraParams => env.render nested extraParams

/-- A concrete `Template` environment mirroring the "render template
without addons" test case: all three lambda reads succeed and both
addons lookups fail with `ErrAddonsNotFound`. -/
def templateWitnessEnv : TemplateEnv :=
  { rulePriorityLambda := .ok "lambda"
    desiredCountLambda := .ok "something"
    envControllerLambda := .ok "something"
    addons := { template := .error .notFound, parameters := .error .notFound }
    outputsOf := fun _ => .error "unused"
    render := fun nested extra =>
      match nested, extra with
      | none, "" => .ok "template"
      | _, _ => .error "unexpected nested addons stack" }

end WorkloadTemplate

namespace Engine

/-- Modelled from the spec: the live provider-reported stack statuses of
the data model (spec section 3, StackState); `ABSENT` is represented by
`none` at the provider level. -/
inductive StackStatus
| createInProgress
| createComplete
| updateInProgress
| updateComplete
| rollbackInProgress
| rollbackComplete
| deleteInProgress
| failed
deriving DecidableEq, Repr

/-- Modelled from the spec: a live stack as the provider reports it — a
status plus the template bytes and parameter set it currently holds. -/
structure StackInstance where
  status : StackStatus
  template : List Nat
  params : List (String × String)
deriving DecidableEq, Repr

/-- The provider-side state for one StackIdentity: `none` is the
`ABSENT` StackState. -/
abbrev ProviderState := Option StackInstance

/-- The provider calls the engine can issue during one `Deploy`,
recorded as a trace.  `promptConfirm` stands for asking the caller for
confirmation; the engine never emits it. -/
inductive Call
| describeStack
| createChangeSet
| executeChangeSet
| deleteStack
| pollUntilAbsent
| pollUntilTerminal
| promptConfirm
deriving DecidableEq, Repr

/-- Modelled from the spec: the caller-facing deployment outcomes of the
engine contract (spec section 6). -/
inductive Outcome
| Created
| Updated
| NoOpUpToDate
| RecreatedAfterRollback
deriving DecidableEq, Repr

/-- Modelled from the spec: the fatal deployment error of the taxonomy
raised when a terminal failure state is reached. -/
inductive DeployError
| deploymentFailed
| unexpectedState
deriving DecidableEq, Repr

/-- How the provider resolves the executions this `Deploy` issues:
whether an executed create and an executed update reach their COMPLETE
state or roll back. -/
structure ProviderBehavior where
  createSucceeds : Bool
  updateSucceeds : Bool
deriving DecidableEq, Repr

/-- Whether a status is one of the `*_IN_PROGRESS` states the engine
attaches to rather than competing with (spec section 4.3 step 5). -/
def StackStatus.isInProgress : StackStatus → Bool
| .createInProgress => true
| .updateInProgress => true
| .rollbackInProgress => true
| .deleteInProgress => true
| _ => false

/-- Modelled from the spec: attaching to an in-flight operation by
polling until it reaches its terminal state (spec section 4.3 step 5);
in this synchronous model the operation resolves to its natural
terminal status. -/
def settle (s : StackInstance) : ProviderState :=
  match s.status with
  | .createInProgress => some { s with status := .createComplete }
  | .updateInProgress => some { s with status := .updateComplete }
  | .rollbackInProgress => some { s with status := .rollbackComplete }
  | .deleteInProgress => none
  | _ => some s

/-- Modelled from the spec: the provider's change-set computation — the
provider is authoritative on whether a resource-level delta exists, and
an update whose template and parameters equal the live ones is `EMPTY`
(spec sections 4.2 and 8).  Returns `true` when there is a delta. -/
def hasDelta (tmpl : List Nat) (params : List (String × String))
    (live : ProviderState) : Bool :=
  match live with
  | none => true
  | some s => !(s.template = tmpl && s.params = params : Bool)

/-- Modelled from the spec: executing a create change set and polling
until `CREATE_COMPLETE` or a failure state (spec section 4.3 step 2); a
failed creation is rolled back into `ROLLBACK_COMPLETE`. -/
def runCreate (b : ProviderBehavior) (tmpl : List Nat)
    (params : List (String × String)) :
    ProviderState × Except DeployError Outcome :=
  if b.createSucceeds then
    (some { status := .createComplete, template := tmpl, params := params },
      .ok .Created)
  else
    (some { status := .rollbackComplete, template := tmpl, params := params },
      .error .deploymentFailed)

/-- Modelled from the spec: executing an update change set and polling
until `UPDATE_COMPLETE` or failure (spec section 4.3 step 3); a failed
update rolls back to the previous live stack. -/
def runUpdate (b : ProviderBehavior) (tmpl : List Nat)
    (params : List (String × String)) (prev : StackInstance) :
    ProviderState × Except DeployError Outcome :=
  if b.updateSucceeds then
    (some { status := .updateComplete, template := tmpl, params := params },
      .ok .Updated)
  else (some prev, .error .deploymentFailed)

/-- Modelled from the spec: one `Deploy` call of the Deployment State
Machine (spec section 4.3).  It observes the live state, attaches to any
in-flight operation, then: creates when `ABSENT`; previews and either
no-ops on `EMPTY` or executes an update on a healthy stack; deletes,
confirms `ABSENT` and recreates on `ROLLBACK_COMPLETE` (outcome
`RecreatedAfterRollback`); and surfaces a terminal `FAILED` state as a
deployment failure.  Returns the new provider state, the trace of
issued calls and the result. -/
def deploy (b : ProviderBehavior) (tmpl : List Nat)
    (params : List (String × String)) (live : ProviderState) :
    ProviderState × List Call × Except DeployError Outcome :=
  let attachCalls : List Call :=
    match live with
    | some s => if s.status.isInProgress then [.pollUntilTerminal] else []
    | none => []
  match live.bind settle with
  | none =>
    let (p, res) := runCreate b tmpl params
    (p, .describeStack :: attachCalls ++
      [.createChangeSet, .executeChangeSet, .pollUntilTerminal], res)
  | some s =>
    match s.status with
    | .createComplete | .updateComplete =>
      if hasDelta tmpl params (some s) then
        let (p, res) := runUpdate b tmpl params s
        (p, .describeStack :: attachCalls ++
          [.createChangeSet, .executeChangeSet, .pollUntilTerminal], res)
      else
        (some s, .describeStack :: attachCalls ++ [.createChangeSet],
          .ok .NoOpUpToDate)
    | .rollbackComplete =>
      let (p, res) := runCreate b tmpl params
      (p, .describeStack :: attachCalls ++
        [.deleteStack, .pollUntilAbsent, .createChangeSet, .executeChangeSet,
          .pollUntilTerminal],
        res.map (fun _ => Outcome.RecreatedAfterRollback))
    | .failed =>
      (some s, .describeStack :: attachCalls, .error .deploymentFailed)
    | _ => (some s, .describeStack :: attachCalls, .error .unexpectedState)

end Engine

namespace EventStream

/-- Modelled from the spec: a progress event of the data model (spec
section 3, StackEvent): timestamp, resource logical id, status and
status reason. -/
structure StackEvent where
  timestamp : Nat
  resourceLogicalId : String
  status : String
  statusReason : String
deriving DecidableEq, Repr

/-- Modelled from the spec: the events of one poll response that are
strictly newer than the session cursor — only these are emitted (spec
section 4.4). -/
def freshEvents (cursor : Nat) (polled : List StackEvent) : List StackEvent :=
  polled.filter (fun e => cursor < e.timestamp)

/-- Modelled from the spec: the session cursor after emitting a batch —
the latest timestamp seen so far. -/
def advanceCursor (cursor : Nat) (emitted : List StackEvent) : Nat :=
  emitted.foldl (fun c e => max c e.timestamp) cursor

/-- Modelled from the spec: the Event Stream Reader over one polling
session (spec section 4.4) — each poll response is filtered against the
cursor, the fresh events are delivered to the progress sink in order,
and the cursor advances past them. -/
def emitAll (cursor : Nat) : List (List StackEvent) → List StackEvent
| [] => []
| poll :: rest =>
  freshEvents cursor poll ++
    emitAll (advanceCursor cursor (freshEvents cursor poll)) rest

/-- A first poll response: the provider reports one event at time 1. -/
def pollA : List StackEvent :=
  [{ timestamp := 1, resourceLogicalId := "LoadBalancer",
     status := "CREATE_IN_PROGRESS", statusReason := "" }]

/-- A second poll response that repeats the time-1 event and adds a new
event at time 2, as a provider returning the most recent events does. -/
def pollB : List StackEvent :=
  [{ timestamp := 1, resourceLogicalId := "LoadBalancer",
     status := "CREATE_IN_PROGRESS", statusReason := "" },
   { timestamp := 2, resourceLogicalId := "LoadBalancer",
     status := "CREATE_COMPLETE", statusReason := "" }]

end EventStream

namespace Packager

/-- Modelled from the spec: the provider's default inline-submission
byte ceiling (spec section 6: configuration, defaulting to the known
provider limit of 51,200 bytes). -/
def defaultInlineThreshold : Nat := 51200

/-- A write to the object store: destination bucket, key and the bytes
written. -/
structure StoreWrite where
  bucket : String
  key : String
  body : List Nat
deriving DecidableEq, Repr

/-- The template part of a provider-ready payload: either the template
bytes inline or a URL reference to an object-store location. -/
inductive TemplatePayload
| inlineBody (body : List Nat)
| urlRef (url : String)
deriving DecidableEq, Repr

/-- The addressable object-store location produced by `PutObject`. -/
def objectUrl (bucket key : String) : String :=
  "https://" ++ bucket ++ ".s3.amazonaws.com/" ++ key

/-- Modelled from the spec: the Parameter/Template Packager (spec
section 4.1).  A template whose byte size exceeds the configured inline
threshold is first persisted to the object store and the payload
replaced with a URL reference; otherwise it is submitted inline with no
store write. -/
def packageTemplate (threshold : Nat) (bucket key : String)
    (body : List Nat) : TemplatePayload × List StoreWrite :=
  if body.length > threshold then
    (.urlRef (objectUrl bucket key), [{ bucket := bucket, key := key, body := body }])
  else
    (.inlineBody body, [])

end Packager

namespace Previewer

/-- Modelled from the spec: the change-set statuses of the data model
(spec section 3, ChangeSet). -/
inductive CsStatus
| pending
| ready
| emptySet
| failed
deriving DecidableEq, Repr

/-- Modelled from the spec: one `DescribeChangePreview` response — the
change-set status and the provider's human-readable reason. -/
structure CsDescription where
  status : CsStatus
  reason : String
deriving DecidableEq, Repr

/-- The terminal outcomes of a change-set preview: a concrete delta
ready to execute, or a successful no-op. -/
inductive PreviewResult
| readyToExecute
| emptyNoOp
deriving DecidableEq, Repr

/-- Modelled from the spec: the preview error taxonomy — a substantive
change-set failure with the provider's reason text, or a polling
timeout. -/
inductive PreviewError
| changeSetError (reason : String)
| timeoutError
deriving DecidableEq, Repr

/-- Modelled from the spec: whether a failure reason means "no changes"
(spec section 4.2: `FAILED` for the reason "no changes" is a no-op, any
other reason is substantive). -/
def isNoChangesReason (reason : String) : Bool :=
  reason = "no changes"

/-- Modelled from the spec: the Change Previewer polling loop (spec
section 4.2) over the sequence of `DescribeChangePreview` responses the
provider returns: poll while `PENDING`; `READY` is returned for
execution, `EMPTY` is a successful no-op, `FAILED` with a "no changes"
reason is folded into the no-op, and any other `FAILED` is a
`ChangeSetError` carrying the provider's reason verbatim; an exhausted
response sequence is a `TimeoutError`. -/
def pollChangeSet : List CsDescription → Except PreviewError PreviewResult
| [] => .error .timeoutError
| d :: rest =>
  match d.status with
  | .pending => pollChangeSet rest
  | .ready => .ok .readyToExecute
  | .emptySet => .ok .emptyNoOp
  | .failed =>
    if isNoChangesReason d.reason then .ok .emptyNoOp
    else .error (.changeSetError d.reason)

end Previewer

namespace Guard

/-- Modelled from the spec: the phases one deployment request for a
given StackIdentity moves through — idle (not yet submitted), waiting
(submitted, queued behind the per-identity serialization), mutating
(issuing change-set/execute calls against the provider), done. -/
inductive Phase
| idle
| waiting
| mutating
| done
deriving DecidableEq, Repr

/-- Modelled from the spec: the joint state of two simultaneous `Deploy`
calls for the same StackIdentity (spec section 5); `owner` records which
request currently holds the exclusive right to mutate the stack. -/
structure GState where
  first : Phase
  second : Phase
  owner : Option (Fin 2)
deriving DecidableEq, Repr

/-- Modelled from the spec: the interleaving semantics of the
concurrent-deploy guard — a request may be submitted at any time, it
enters the mutating phase only by acquiring the free per-identity
right, and finishing releases it; a second request therefore waits
(queued and serialized) while the first is mutating. -/
inductive Step : GState → GState → Prop
| submit1 {s : GState} (h : s.first = .idle) :
    Step s { s with first := .waiting }
| acquire1 {s : GState} (h : s.first = .waiting) (ho : s.owner = none) :
    Step s { s with first := .mutating, owner := some 0 }
| release1 {s : GState} (h : s.first = .mutating) :
    Step s { s with first := .done, owner := none }
| submit2 {s : GState} (h : s.second = .idle) :
    Step s { s with second := .waiting }
| acquire2 {s : GState} (h : s.second = .waiting) (ho : s.owner = none) :
    Step s { s with second := .mutating, owner := some 1 }
| release2 {s : GState} (h : s.second = .mutating) :
    Step s { s with second := .done, owner := none }

/-- The initial state: both requests idle and nobody mutating. -/
def init : GState := { first := .idle, second := .idle, owner := none }

/-- The states reachable from the initial state by any interleaving of
the two requests. -/
def Reachable (s : GState) : Prop := Relation.ReflTransGen Step init s

/-- How many of the two requests are mutating the stack right now. -/
def mutatingCount (s : GState) : Nat :=
  (if s.first = .mutating then 1 else 0) +
    (if s.second = .mutating then 1 else 0)

/-- The guard invariant: a request in the mutating phase holds the
per-identity right, so ownership identifies the unique mutator. -/
def Inv (s : GState) : Prop :=
  (s.first = .mutating → s.owner = some 0) ∧
    (s.second = .mutating → s.owner = some 1)

end Guard

/-! Further definition namespaces are inserted above this marker; the
theorems for every claim follow it. -/

namespace PipelineCLI

/-- C1: if the pipeline stack does not exist yet, the bucket lookup
succeeds, the optional connection-name step succeeds, and the
`CreatePipeline` call fails with an error whose chain contains
`ErrStackAlreadyExists`, then `deployPipeline` returns success (`none`)
instead of surfacing the already-exists error. -/
theorem deployPipeline_already_exists_is_success
    (o : DeployOpts) (env : DeployEnv) (b : String) (err : GoError)
    (hex : env.pipelineExists = .ok false)
    (hb : env.appResourcesByRegion = .ok b)
    (hconn : o.shouldPromptUpdateConnection = false ∨
      (env.hasConnectionName = true ∧ ∃ c, env.connectionName = .ok c))
    (hcreate : env.createPipeline = some err)
    (halready : err.isStackAlreadyExists = true) :
    deployPipeline o env = none := by
  rcases hconn with hp | ⟨hc, c, hcn⟩
  · simp [deployPipeline, getBucketName, hex, hb, hp, hcreate, halready]
  · simp [deployPipeline, getBucketName, hex, hb, hc, hcn, hcreate, halready]

/-- Witness for C1 at a concrete environment: the create call fails with
a wrapped already-exists error and the deployment still succeeds. -/
theorem deployPipeline_already_exists_is_success_witness :
    deployPipeline
      { skipConfirmation := false, shouldPromptUpdateConnection := false }
      { pipelineExists := .ok false
        appResourcesByRegion := .ok "artifact-bucket"
        hasConnectionName := false
        connectionName := .error (.errMsg "unused")
        createPipeline := some (.wrap "retried call"
          (.stackAlreadyExists "phonetool-pipeline"))
        updatePipeline := none
        confirmRedeploy := .ok true } = none :=
  deployPipeline_already_exists_is_success _ _ "artifact-bucket"
    (.wrap "retried call" (.stackAlreadyExists "phonetool-pipeline"))
    rfl rfl (Or.inl rfl) rfl rfl

/-- C9: once the manifest unmarshals, a pipeline name longer than 100
characters makes `Execute` fail with the name-length error before the
stage conversion or the pipeline-stack deployment is attempted, while a
name of at most 100 characters passes the length check. -/
theorem execute_name_length_check
    (skip : Bool) (env : ExecuteEnv) (p : PipelineManifest) (d : String)
    (hres : env.addResources = none)
    (hread : env.readManifest = .ok d)
    (hum : env.unmarshalManifest = .ok p) :
    (100 < p.name.length →
       (Execute skip env).2 = some (.errMsg ("pipeline name " ++ p.name ++
          " must be shorter than 100 characters")) ∧
       ExecStep.convertStages ∉ (Execute skip env).1 ∧
       ExecStep.deployPipelineStep ∉ (Execute skip env).1) ∧
    (p.name.length ≤ 100 → ExecStep.nameLengthCheckPassed ∈ (Execute skip env).1) := by
  constructor
  · intro h
    simp [Execute, hres, hread, hum, h]
  · intro h
    have h' : ¬ (p.name.length > 100) := by omega
    cases hcp : p.hasConnectionNameProp <;>
      cases hca : env.getConnectionARN <;>
      cases hsf : env.sourceFromManifest <;>
      cases hcs : env.convertStages <;>
      cases hab : env.artifactBuckets <;>
      simp [Execute, hres, hread, hum, h', hcp, hca, hsf, hcs, hab]

/-- Witness for C9 at a concrete environment with a 101-character
pipeline name: `Execute` fails and never reaches stage conversion or
deployment. -/
theorem execute_name_length_check_witness :
    100 < execLongName.length ∧
    ((Execute false execWitnessEnv).2 = some (.errMsg ("pipeline name " ++
        execLongName ++ " must be shorter than 100 characters")) ∧
     ExecStep.convertStages ∉ (Execute false execWitnessEnv).1 ∧
     ExecStep.deployPipelineStep ∉ (Execute false execWitnessEnv).1) :=
  ⟨by decide,
    (execute_name_length_check false execWitnessEnv
        { name := execLongName, hasConnectionNameProp := false }
        "manifest-bytes" rfl rfl rfl).1 (by decide)⟩

end PipelineCLI

namespace StackNaming

/-- Rebuilding a string from its character list is the identity. -/
theorem mk_toList (s : String) : String.mk s.toList = s := by
  cases s
  rfl

/-- Model validation against the first test case of
`TestLoadBalancedWebService_StackName`: short names are joined
unchanged. -/
theorem stackName_matches_short_test_case :
    StackName "phonetool" "test" "frontend" = "phonetool-test-frontend" := by
  decide

set_option maxRecDepth 10000 in
/-- Model validation against the second test case of
`TestLoadBalancedWebService_StackName`: a joined name longer than 128
characters is truncated to the expected 128-character stack name. -/
theorem stackName_matches_long_test_case :
    StackName "phonetool" "test" longServiceName = longExpectedStackName := by
  decide

set_option maxRecDepth 10000 in
/-- Counterexample for C7: at the long service name of the test suite,
`StackName` does not return the plain hyphen-join of the three names. -/
theorem stackName_not_plain_join :
    ¬ StackName "phonetool" "test" longServiceName =
      "phonetool" ++ "-" ++ "test" ++ "-" ++ longServiceName := by
  decide

/-- C7 (amended): `StackName` is a pure function of the three names that
returns the hyphen-join `app-env-service` whenever that join is at most
128 characters long, and in general returns the join truncated to its
first 128 characters; determinism is immediate since it is a function of
exactly these arguments. -/
theorem stackName_join_truncated (app env service : String) :
    ((app ++ "-" ++ env ++ "-" ++ service).length ≤ 128 →
       StackName app env service = app ++ "-" ++ env ++ "-" ++ service) ∧
    StackName app env service =
      String.mk ((app ++ "-" ++ env ++ "-" ++ service).toList.take 128) := by
  constructor
  · intro hle
    simp only [StackName]
    rw [if_neg (by omega)]
  · simp only [StackName]
    by_cases h : (app ++ "-" ++ env ++ "-" ++ service).length > 128
    · rw [if_pos h]
    · rw [if_neg h]
      have hlen : (app ++ "-" ++ env ++ "-" ++ service).toList.length
          = (app ++ "-" ++ env ++ "-" ++ service).length := rfl
      have htake : (app ++ "-" ++ env ++ "-" ++ service).toList.take 128
          = (app ++ "-" ++ env ++ "-" ++ service).toList :=
        List.take_of_length_le (by omega)
      rw [htake, mk_toList]

/-- Witness for C7 at the short test triple: the join is within the
128-character limit and is returned unchanged. -/
theorem stackName_join_truncated_witness :
    ("phonetool" ++ "-" ++ "test" ++ "-" ++ "frontend").length ≤ 128 ∧
    StackName "phonetool" "test" "frontend" =
      "phonetool" ++ "-" ++ "test" ++ "-" ++ "frontend" :=
  ⟨by decide, (stackName_join_truncated "phonetool" "test" "frontend").1 (by decide)⟩

end StackNaming

namespace WorkloadTemplate

/-- C10: with the lambda assets available, if both the addons template
and the addons parameters fail with `ErrAddonsNotFound` then `Template`
succeeds as the plain render with no nested addons stack and empty
extra parameters, while any other addons error makes `Template` fail
with that error wrapped with the workload name. -/
theorem template_addons_not_found_ok
    (name : String) (env : TemplateEnv) (s1 s2 s3 : String)
    (h1 : env.rulePriorityLambda = .ok s1)
    (h2 : env.desiredCountLambda = .ok s2)
    (h3 : env.envControllerLambda = .ok s3) :
    (∀ e1 e2 : AddonsError,
        env.addons.template = .error e1 → e1.isNotFound = true →
        env.addons.parameters = .error e2 → e2.isNotFound = true →
        Template name env = env.render none "") ∧
    (∀ e1 : AddonsError,
        env.addons.template = .error e1 → e1.isNotFound = false →
        Template name env =
          .error ("generate addons template for " ++ name ++ ": " ++ e1.message)) ∧
    (∀ (e2 : AddonsError) (nested : Option NestedStackOpts),
        addonsOutputs name env.addons env.outputsOf = .ok nested →
        env.addons.parameters = .error e2 → e2.isNotFound = false →
        Template name env =
          .error ("parse addons parameters for " ++ name ++ ": " ++ e2.message)) := by
  refine ⟨?_, ?_, ?_⟩
  · intro e1 e2 ht hn1 hp hn2
    simp [Template, addonsOutputs, addonsParameters, h1, h2, h3, ht, hn1, hp, hn2]
  · intro e1 ht hn1
    simp [Template, addonsOutputs, h1, h2, h3, ht, hn1]
  · intro e2 nested hout hp hn2
    simp [Template, addonsParameters, h1, h2, h3, hout, hp, hn2]

/-- Witness for C10 at the "render template without addons" test case:
both addons lookups miss and the template still renders. -/
theorem template_addons_not_found_ok_witness :
    Template "frontend" templateWitnessEnv = .ok "template" :=
  ((template_addons_not_found_ok "frontend" templateWitnessEnv
      "lambda" "something" "something" rfl rfl rfl).1
    AddonsError.notFound AddonsError.notFound rfl rfl rfl rfl).trans (by rfl)

end WorkloadTemplate

namespace Engine

/-- Deploying onto a healthy stack that already holds exactly the
desired template and parameters computes an `EMPTY` change set and
returns the no-op outcome without executing anything. -/
theorem deploy_on_clean (b : ProviderBehavior) (tmpl : List Nat)
    (params : List (String × String)) (st : StackStatus)
    (hst : st = StackStatus.createComplete ∨ st = StackStatus.updateComplete) :
    deploy b tmpl params (some ⟨st, tmpl, params⟩) =
      (some ⟨st, tmpl, params⟩, [.describeStack, .createChangeSet],
        .ok .NoOpUpToDate) := by
  rcases hst with h | h <;> subst h <;>
    simp [deploy, settle, StackStatus.isInProgress, hasDelta]

/-- If one `Deploy` ends with a successful outcome, an immediately
repeated `Deploy` with the same template and parameters is a no-op that
issues no execute call. -/
theorem second_noop_of_clean (b : ProviderBehavior) (tmpl : List Nat)
    (params : List (String × String)) (live : ProviderState) (st : StackStatus)
    (hst : st = StackStatus.createComplete ∨ st = StackStatus.updateComplete)
    (h1 : (deploy b tmpl params live).1 = some ⟨st, tmpl, params⟩) :
    (deploy b tmpl params (deploy b tmpl params live).1).2.2 =
      .ok .NoOpUpToDate ∧
    Call.executeChangeSet ∉ (deploy b tmpl params (deploy b tmpl params live).1).2.1 := by
  rw [h1, deploy_on_clean b tmpl params st hst]
  refine ⟨rfl, ?_⟩
  simp

end Engine

namespace Engine

/-- C2: a stack observed in `ROLLBACK_COMPLETE` is deleted, confirmed
`ABSENT`, recreated through the create path, and the call returns
outcome `RecreatedAfterRollback`, with no caller-confirmation prompt
anywhere in the issued calls. -/
theorem deploy_rollback_complete_recreates
    (b : ProviderBehavior) (tmpl : List Nat) (params : List (String × String))
    (s : StackInstance)
    (hs : s.status = .rollbackComplete)
    (hc : b.createSucceeds = true) :
    deploy b tmpl params (some s) =
      (some { status := .createComplete, template := tmpl, params := params },
        [.describeStack, .deleteStack, .pollUntilAbsent, .createChangeSet,
          .executeChangeSet, .pollUntilTerminal],
        .ok .RecreatedAfterRollback) ∧
    Call.promptConfirm ∉ (deploy b tmpl params (some s)).2.1 := by
  have h1 : deploy b tmpl params (some s) =
      (some { status := .createComplete, template := tmpl, params := params },
        [.describeStack, .deleteStack, .pollUntilAbsent, .createChangeSet,
          .executeChangeSet, .pollUntilTerminal],
        .ok .RecreatedAfterRollback) := by
    simp [deploy, settle, StackStatus.isInProgress, runCreate, hs, hc, Except.map]
  refine ⟨h1, ?_⟩
  rw [h1]
  simp

/-- Witness for C2: a concrete `ROLLBACK_COMPLETE` stack is recreated
with the desired template and the outcome is `RecreatedAfterRollback`. -/
theorem deploy_rollback_complete_recreates_witness :
    deploy { createSucceeds := true, updateSucceeds := true } [7] [("k", "v")]
        (some { status := .rollbackComplete, template := [1],
                params := [("k", "old")] }) =
      (some { status := .createComplete, template := [7], params := [("k", "v")] },
        [.describeStack, .deleteStack, .pollUntilAbsent, .createChangeSet,
          .executeChangeSet, .pollUntilTerminal],
        .ok .RecreatedAfterRollback) :=
  (deploy_rollback_complete_recreates
    { createSucceeds := true, updateSucceeds := true } [7] [("k", "v")]
    { status := .rollbackComplete, template := [1], params := [("k", "old")] }
    rfl rfl).1

/-- C3: if a `Deploy` of a template and parameter set ends in any
successful outcome, an immediately repeated `Deploy` of the same
template and parameters returns `NoOpUpToDate` and issues no execute
call, because the change set it computes is `EMPTY`. -/
theorem deploy_idempotent_second_noop
    (b : ProviderBehavior) (tmpl : List Nat) (params : List (String × String))
    (live : ProviderState) (o : Outcome)
    (h : (deploy b tmpl params live).2.2 = .ok o) :
    (deploy b tmpl params (deploy b tmpl params live).1).2.2 =
      .ok .NoOpUpToDate ∧
    Call.executeChangeSet ∉
      (deploy b tmpl params (deploy b tmpl params live).1).2.1 := by
  rcases live with _ | ⟨st, t, p⟩
  · by_cases hc : b.createSucceeds
    · exact second_noop_of_clean b tmpl params none .createComplete (Or.inl rfl)
        (by simp [deploy, runCreate, hc])
    · exfalso
      simp [deploy, runCreate, hc] at h
  · cases st
    case createInProgress =>
      by_cases hd : t = tmpl ∧ p = params
      · obtain ⟨h1, h2⟩ := hd
        exact second_noop_of_clean b tmpl params _ .createComplete (Or.inl rfl)
          (by simp [deploy, settle, StackStatus.isInProgress, hasDelta, h1, h2])
      · have hd2 : ¬t = tmpl ∨ ¬p = params := not_and_or.mp hd
        by_cases hu : b.updateSucceeds
        · exact second_noop_of_clean b tmpl params _ .updateComplete (Or.inr rfl)
            (by simp [deploy, settle, StackStatus.isInProgress, hasDelta, runUpdate, hu, hd2])
        · exfalso
          simp [deploy, settle, StackStatus.isInProgress, hasDelta, runUpdate, hu, hd2] at h
    case updateInProgress =>
      by_cases hd : t = tmpl ∧ p = params
      · obtain ⟨h1, h2⟩ := hd
        exact second_noop_of_clean b tmpl params _ .updateComplete (Or.inr rfl)
          (by simp [deploy, settle, StackStatus.isInProgress, hasDelta, h1, h2])
      · have hd2 : ¬t = tmpl ∨ ¬p = params := not_and_or.mp hd
        by_cases hu : b.updateSucceeds
        · exact second_noop_of_clean b tmpl params _ .updateComplete (Or.inr rfl)
            (by simp [deploy, settle, StackStatus.isInProgress, hasDelta, runUpdate, hu, hd2])
        · exfalso
          simp [deploy, settle, StackStatus.isInProgress, hasDelta, runUpdate, hu, hd2] at h
    case createComplete =>
      by_cases hd : t = tmpl ∧ p = params
      · obtain ⟨h1, h2⟩ := hd
        exact second_noop_of_clean b tmpl params _ .createComplete (Or.inl rfl)
          (by simp [deploy, settle, StackStatus.isInProgress, hasDelta, h1, h2])
      · have hd2 : ¬t = tmpl ∨ ¬p = params := not_and_or.mp hd
        by_cases hu : b.updateSucceeds
        · exact second_noop_of_clean b tmpl params _ .updateComplete (Or.inr rfl)
            (by simp [deploy, settle, StackStatus.isInProgress, hasDelta, runUpdate, hu, hd2])
        · exfalso
          simp [deploy, settle, StackStatus.isInProgress, hasDelta, runUpdate, hu, hd2] at h
    case updateComplete =>
      by_cases hd : t = tmpl ∧ p = params
      · obtain ⟨h1, h2⟩ := hd
        exact second_noop_of_clean b tmpl params _ .updateComplete (Or.inr rfl)
          (by simp [deploy, settle, StackStatus.isInProgress, hasDelta, h1, h2])
      · have hd2 : ¬t = tmpl ∨ ¬p = params := not_and_or.mp hd
        by_cases hu : b.updateSucceeds
        · exact second_noop_of_clean b tmpl params _ .updateComplete (Or.inr rfl)
            (by simp [deploy, settle, StackStatus.isInProgress, hasDelta, runUpdate, hu, hd2])
        · exfalso
          simp [deploy, settle, StackStatus.isInProgress, hasDelta, runUpdate, hu, hd2] at h
    case rollbackInProgress =>
      by_cases hc : b.createSucceeds
      · exact second_noop_of_clean b tmpl params _ .createComplete (Or.inl rfl)
          (by simp [deploy, settle, StackStatus.isInProgress, runCreate, hc])
      · exfalso
        simp [deploy, settle, StackStatus.isInProgress, runCreate, Except.map, hc] at h
    case rollbackComplete =>
      by_cases hc : b.createSucceeds
      · exact second_noop_of_clean b tmpl params _ .createComplete (Or.inl rfl)
          (by simp [deploy, settle, StackStatus.isInProgress, runCreate, hc])
      · exfalso
        simp [deploy, settle, StackStatus.isInProgress, runCreate, Except.map, hc] at h
    case deleteInProgress =>
      by_cases hc : b.createSucceeds
      · exact second_noop_of_clean b tmpl params _ .createComplete (Or.inl rfl)
          (by simp [deploy, settle, StackStatus.isInProgress, runCreate, hc])
      · exfalso
        simp [deploy, settle, StackStatus.isInProgress, runCreate, Except.map, hc] at h
    case failed =>
      exfalso
      simp [deploy, settle, StackStatus.isInProgress] at h

/-- Witness for C3: deploying a template onto an absent stack succeeds
with `Created`, and the immediate second deploy of the same inputs is a
no-op with no execute call. -/
theorem deploy_idempotent_second_noop_witness :
    (deploy { createSucceeds := true, updateSucceeds := true }
        [7] [("k", "v")] none).2.2 = .ok .Created ∧
    ((deploy { createSucceeds := true, updateSucceeds := true } [7] [("k", "v")]
        (deploy { createSucceeds := true, updateSucceeds := true }
          [7] [("k", "v")] none).1).2.2 = .ok .NoOpUpToDate ∧
     Call.executeChangeSet ∉
       (deploy { createSucceeds := true, updateSucceeds := true } [7] [("k", "v")]
         (deploy { createSucceeds := true, updateSucceeds := true }
           [7] [("k", "v")] none).1).2.1) :=
  ⟨by rfl,
    deploy_idempotent_second_noop
      { createSucceeds := true, updateSucceeds := true }
      [7] [("k", "v")] none .Created (by rfl)⟩

end Engine

namespace EventStream

/-- The cursor never moves backwards when it advances past a batch. -/
theorem le_advanceCursor (l : List StackEvent) :
    ∀ c : Nat, c ≤ advanceCursor c l := by
  induction l with
  | nil => intro c; exact Nat.le_refl c
  | cons e l ih =>
    intro c
    have h : advanceCursor c (e :: l) = advanceCursor (max c e.timestamp) l := rfl
    rw [h]
    exact le_trans (Nat.le_max_left _ _) (ih _)

/-- Every member of a batch has its timestamp bounded by the advanced
cursor. -/
theorem mem_le_advanceCursor (l : List StackEvent) :
    ∀ (c : Nat) (a : StackEvent), a ∈ l → a.timestamp ≤ advanceCursor c l := by
  induction l with
  | nil => intro c a ha; cases ha
  | cons e l ih =>
    intro c a ha
    have h : advanceCursor c (e :: l) = advanceCursor (max c e.timestamp) l := rfl
    rw [h]
    rcases List.mem_cons.mp ha with rfl | ha
    · exact le_trans (Nat.le_max_right _ _) (le_advanceCursor l _)
    · exact ih _ a ha

/-- Members of a fresh batch are strictly newer than the cursor. -/
theorem mem_freshEvents {cursor : Nat} {poll : List StackEvent} {a : StackEvent}
    (ha : a ∈ freshEvents cursor poll) : cursor < a.timestamp := by
  have h := List.mem_filter.mp ha
  exact of_decide_eq_true h.2

/-- If every poll response is strictly sorted by timestamp, the emitted
stream has strictly increasing timestamps and every emitted event lies
strictly beyond the session's starting cursor. -/
theorem emitAll_strict (polls : List (List StackEvent)) :
    ∀ cursor : Nat,
      (∀ poll ∈ polls, poll.Pairwise (fun a b => a.timestamp < b.timestamp)) →
      (emitAll cursor polls).Pairwise (fun a b => a.timestamp < b.timestamp) ∧
      ∀ e ∈ emitAll cursor polls, cursor < e.timestamp := by
  induction polls with
  | nil =>
    intro cursor _
    exact ⟨List.Pairwise.nil, by intro e he; cases he⟩
  | cons poll rest ih =>
    intro cursor hs
    have hpoll : poll.Pairwise (fun a b => a.timestamp < b.timestamp) :=
      hs poll (List.mem_cons_self _ _)
    have hrest : ∀ q ∈ rest, q.Pairwise (fun a b => a.timestamp < b.timestamp) :=
      fun q hq => hs q (List.mem_cons_of_mem _ hq)
    have hfresh : (freshEvents cursor poll).Pairwise
        (fun a b => a.timestamp < b.timestamp) :=
      hpoll.sublist (List.filter_sublist _)
    obtain ⟨ihp, ihgt⟩ := ih (advanceCursor cursor (freshEvents cursor poll)) hrest
    constructor
    · simp only [emitAll]
      rw [List.pairwise_append]
      refine ⟨hfresh, ihp, ?_⟩
      intro a ha b hb
      have h1 : a.timestamp ≤ advanceCursor cursor (freshEvents cursor poll) :=
        mem_le_advanceCursor _ _ a ha
      have h2 := ihgt b hb
      omega
    · intro e he
      simp only [emitAll, List.mem_append] at he
      rcases he with hf | hr
      · exact mem_freshEvents hf
      · have h2 := ihgt e hr
        have hc := le_advanceCursor (freshEvents cursor poll) cursor
        omega

/-- C4: for any sequence of poll responses each strictly sorted by
timestamp, the stream the Event Stream Reader delivers to the progress
sink contains no event twice and is in non-decreasing timestamp order,
because only events strictly newer than the cursor are emitted at each
poll. -/
theorem emit_exactly_once_ordered (cursor : Nat) (polls : List (List StackEvent))
    (hsorted : ∀ poll ∈ polls, poll.Pairwise (fun a b => a.timestamp < b.timestamp)) :
    (emitAll cursor polls).Nodup ∧
    (emitAll cursor polls).Pairwise (fun a b => a.timestamp ≤ b.timestamp) := by
  obtain ⟨hp, _⟩ := emitAll_strict polls cursor hsorted
  constructor
  · exact hp.imp (fun hab => by
      intro he
      rw [he] at hab
      exact lt_irrefl _ hab)
  · exact hp.imp (fun hab => Nat.le_of_lt hab)

/-- Model validation: the second poll repeats the already-delivered
time-1 event, and the reader delivers it only once, followed by the new
time-2 event. -/
theorem emitAll_dedups_example :
    emitAll 0 [pollA, pollB] =
      [{ timestamp := 1, resourceLogicalId := "LoadBalancer",
         status := "CREATE_IN_PROGRESS", statusReason := "" },
       { timestamp := 2, resourceLogicalId := "LoadBalancer",
         status := "CREATE_COMPLETE", statusReason := "" }] := by
  decide

/-- Witness for C4 at the two concrete poll responses. -/
theorem emit_exactly_once_ordered_witness :
    (emitAll 0 [pollA, pollB]).Nodup ∧
    (emitAll 0 [pollA, pollB]).Pairwise (fun a b => a.timestamp ≤ b.timestamp) :=
  emit_exactly_once_ordered 0 [pollA, pollB] (by decide)

end EventStream

namespace Packager

/-- C5: a template is submitted inline exactly when its byte size does
not exceed the inline threshold, in which case no store write occurs;
when the size exceeds the threshold the payload is a URL reference to
the object-store location and exactly one store write of the template
bytes occurs. -/
theorem package_inline_iff_within_threshold
    (threshold : Nat) (bucket key : String) (body : List Nat) :
    ((packageTemplate threshold bucket key body).1 =
        TemplatePayload.inlineBody body ↔ body.length ≤ threshold) ∧
    (body.length ≤ threshold →
      (packageTemplate threshold bucket key body).2 = []) ∧
    (threshold < body.length →
      (packageTemplate threshold bucket key body).1 =
        TemplatePayload.urlRef (objectUrl bucket key) ∧
      (packageTemplate threshold bucket key body).2 =
        [{ bucket := bucket, key := key, body := body }]) := by
  by_cases h : body.length > threshold
  · have hnle : ¬ body.length ≤ threshold := by omega
    refine ⟨?_, ?_, ?_⟩
    · constructor
      · intro hpay
        exfalso
        simp [packageTemplate, h] at hpay
      · intro hle
        exact absurd hle hnle
    · intro hle
      exact absurd hle hnle
    · intro _
      simp [packageTemplate, h]
  · have hle : body.length ≤ threshold := by omega
    refine ⟨?_, ?_, ?_⟩
    · simp [packageTemplate, h, hle]
    · intro _
      simp [packageTemplate, h]
    · intro hgt
      exact absurd hgt h

/-- Witness for C5 at the spec's two examples: a 60,000-byte template is
uploaded once and referenced by URL, a 10,000-byte template is sent
inline with no store write. -/
theorem package_inline_iff_within_threshold_witness :
    (defaultInlineThreshold < (List.replicate 60000 0).length ∧
      ((packageTemplate defaultInlineThreshold "artifact-bucket" "tmpl"
          (List.replicate 60000 0)).1 =
        TemplatePayload.urlRef (objectUrl "artifact-bucket" "tmpl") ∧
       (packageTemplate defaultInlineThreshold "artifact-bucket" "tmpl"
          (List.replicate 60000 0)).2 =
        [{ bucket := "artifact-bucket", key := "tmpl",
           body := List.replicate 60000 0 }])) ∧
    ((List.replicate 10000 0).length ≤ defaultInlineThreshold ∧
      (packageTemplate defaultInlineThreshold "artifact-bucket" "tmpl"
          (List.replicate 10000 0)).2 = []) := by
  have h60 : defaultInlineThreshold < (List.replicate 60000 (0 : Nat)).length := by
    rw [List.length_replicate]
    decide
  have h10 : (List.replicate 10000 (0 : Nat)).length ≤ defaultInlineThreshold := by
    rw [List.length_replicate]
    decide
  exact ⟨⟨h60,
      (package_inline_iff_within_threshold defaultInlineThreshold
        "artifact-bucket" "tmpl" (List.replicate 60000 0)).2.2 h60⟩,
    ⟨h10,
      (package_inline_iff_within_threshold defaultInlineThreshold
        "artifact-bucket" "tmpl" (List.replicate 10000 0)).2.1 h10⟩⟩

end Packager

namespace Previewer

/-- C6: when the poll terminates with `FAILED` for a reason other than
"no changes" after any number of `PENDING` responses, the previewer
returns a `ChangeSetError` carrying exactly the provider's reason
string. -/
theorem poll_failed_reason_verbatim
    (pendings : List CsDescription) (d : CsDescription) (rest : List CsDescription)
    (hp : ∀ x ∈ pendings, x.status = .pending)
    (hd : d.status = .failed)
    (hr : isNoChangesReason d.reason = false) :
    pollChangeSet (pendings ++ d :: rest) =
      .error (.changeSetError d.reason) := by
  induction pendings with
  | nil =>
    simp [pollChangeSet, hd, hr]
  | cons x xs ih =>
    have hx : x.status = .pending := hp x (List.mem_cons_self _ _)
    have hxs : ∀ y ∈ xs, y.status = .pending :=
      fun y hy => hp y (List.mem_cons_of_mem _ hy)
    simpa [pollChangeSet, hx] using ih hxs

/-- Witness for C6: one `PENDING` response followed by a substantive
`FAILED` response yields a `ChangeSetError` with the verbatim reason. -/
theorem poll_failed_reason_verbatim_witness :
    pollChangeSet
      [{ status := .pending, reason := "" },
       { status := .failed, reason := "role is not authorized" }] =
      .error (.changeSetError "role is not authorized") :=
  poll_failed_reason_verbatim
    [{ status := .pending, reason := "" }]
    { status := .failed, reason := "role is not authorized" }
    []
    (by decide) rfl (by decide)

end Previewer

namespace Guard

/-- Every interleaving step preserves the guard invariant. -/
theorem inv_step {s t : GState} (hinv : Inv s) (hstep : Step s t) : Inv t := by
  obtain ⟨h1, h2⟩ := hinv
  cases hstep with
  | submit1 h =>
    exact ⟨fun hf => absurd hf (by simp_all), fun hg => h2 hg⟩
  | acquire1 h ho =>
    exact ⟨fun _ => rfl, fun hg => absurd (ho ▸ h2 hg) (by decide)⟩
  | release1 h =>
    exact ⟨fun hf => absurd hf (by simp_all), fun hg =>
      absurd ((h1 h).symm.trans (h2 hg)) (by decide)⟩
  | submit2 h =>
    exact ⟨fun hf => h1 hf, fun hg => absurd hg (by simp_all)⟩
  | acquire2 h ho =>
    exact ⟨fun hf => absurd (ho ▸ h1 hf) (by decide), fun _ => rfl⟩
  | release2 h =>
    exact ⟨fun hf =>
      absurd ((h2 h).symm.trans (h1 hf)) (by decide),
      fun hg => absurd hg (by simp_all)⟩

/-- C8: in every state reachable by interleaving two `Deploy` calls for
the same StackIdentity, at most one of them is issuing a mutating call
against the provider — the other is still idle, queued, or finished. -/
theorem at_most_one_mutating (s : GState) (h : Reachable s) :
    mutatingCount s ≤ 1 := by
  have hinv : Inv s := by
    induction h with
    | refl =>
      exact ⟨fun hf => absurd hf (by decide), fun hg => absurd hg (by decide)⟩
    | tail hab hbc ih => exact inv_step ih hbc
  obtain ⟨h1, h2⟩ := hinv
  by_cases hf : s.first = .mutating
  · by_cases hg : s.second = .mutating
    · exfalso
      have e2 := h2 hg
      rw [h1 hf] at e2
      exact absurd e2 (by decide)
    · simp [mutatingCount, hf, hg]
  · by_cases hg : s.second = .mutating
    · simp [mutatingCount, hf, hg]
    · simp [mutatingCount, hf, hg]

/-- Witness for C8 at the reachable state in which the first request is
mutating and the second has been submitted and is queued behind it. -/
theorem at_most_one_mutating_witness :
    mutatingCount { first := .mutating, second := .waiting, owner := some 0 } ≤ 1 :=
  at_most_one_mutating _
    (Relation.ReflTransGen.tail
      (Relation.ReflTransGen.tail
        (Relation.ReflTransGen.tail Relation.ReflTransGen.refl
          (Step.submit1 rfl))
        (Step.acquire1 rfl rfl))
      (Step.submit2 rfl))

end Guard
